import Mathlib

/-!
# Verification of the traffic-lights crossing controller

Shallow embedding of the sequencer and lights agents of the `post-haste`
traffic-lights example (`src/examples/traffic-lights/sequencer.rs`,
`src/examples/traffic-lights/lights.rs`).  Each Rust message handler becomes a
pure Lean function from the agent state to an optional result: `none` models a
`panic!` branch, and a `some` result carries the updated agent state together
with the list of messages emitted to the lights agent and the list of delayed
messages the sequencer schedules to itself.  A small configuration/step layer
models the message pump: one external `ButtonPress` or the delivery of one
pending self-scheduled `Advance` per step, in an arbitrary order, as allowed
by the delay scheduler described in the specification.
-/

/-- Mirrors `TrafficSequenceState` in `sequencer.rs`. -/
inductive TrafficSequenceState where
  | Red
  | RedToGreen
  | Green
  | GreenToRed
deriving DecidableEq, Repr, Fintype

/-- Mirrors `PedestrianCrossingSequenceState` in `sequencer.rs`. -/
inductive PedestrianCrossingSequenceState where
  | Stop
  | CrossPending
  | Cross
  | CrossEnding
deriving DecidableEq, Repr, Fintype

/-- Modelled from the spec: the named delay constants referenced from
`consts.rs` (declared as `mod consts` in `main.rs` but the file is not under
`src/`).  The specification treats them as opaque, deployer-tunable
configuration values, so they are embedded as an enumeration of their names;
which name the sequencer attaches to each scheduled message comes from
`sequencer.rs`. -/
inductive Delay where
  | CROSSING_START_DELAY
  | CROSSING_LENGTH
  | CROSSING_END_DELAY
  | AMBER_TO_GREEN_DELAY
  | GREEN_TO_AMBER_DELAY
  | AMBER_TO_RED_DELAY
deriving DecidableEq, Repr, Fintype

/-- Mirrors `LightsMessage` in `lights.rs`. -/
inductive LightsMessage where
  | SetTrafficLightState (t : TrafficSequenceState)
  | SetPedestrianLightState (p : PedestrianCrossingSequenceState)
  | SetButtonLightState (b : Bool)
  | Display
deriving DecidableEq, Repr

/-- Mirrors the `InternalMessage` struct in `sequencer.rs`: the payload of a
self-scheduled `Advance` message. -/
structure InternalMessage where
  traffic_light_state : TrafficSequenceState
  pedestrian_light_state : Option PedestrianCrossingSequenceState
deriving DecidableEq, Repr, Fintype

/-- A self-scheduled message together with the delay constant it was armed
with (`postmaster::message(...).with_delay(...)` in `sequencer.rs`). -/
abbrev ScheduledMessage := InternalMessage × Delay

/-- Mirrors the mutable state of `SequencerAgent` in `sequencer.rs`
(the `address` field is routing plumbing and has no behavioural content). -/
structure SequencerAgent where
  traffic_light_state : TrafficSequenceState
  pedestrian_light_state : PedestrianCrossingSequenceState
deriving DecidableEq, Repr, Fintype

/-- Mirrors `SequencerAgent::create`: initial state Red / CrossEnding. -/
def SequencerAgent.create : SequencerAgent :=
  ⟨TrafficSequenceState.Red, PedestrianCrossingSequenceState.CrossEnding⟩

/-- Mirrors `SequencerAgent::calculate_red_state_next_step`.  Returns the
lights messages emitted and the self-scheduled messages armed; `none` is the
`panic!()` on `Stop`. -/
def calculate_red_state_next_step (s : SequencerAgent) :
    Option (List LightsMessage × List ScheduledMessage) :=
  match s.pedestrian_light_state with
  | .Stop => none
  | .CrossPending =>
      some ([], [(⟨.Red, some .Cross⟩, .CROSSING_START_DELAY)])
  | .Cross =>
      some ([LightsMessage.SetButtonLightState false],
            [(⟨.Red, some .CrossEnding⟩, .CROSSING_LENGTH)])
  | .CrossEnding =>
      some ([], [(⟨.RedToGreen, some .Stop⟩, .CROSSING_END_DELAY)])

/-- Mirrors `SequencerAgent::calculate_green_state_next_step`; `none` is the
`panic!()` on `Cross` or `CrossEnding` ("Invalid in green states"). -/
def calculate_green_state_next_step (s : SequencerAgent) :
    Option (List LightsMessage × List ScheduledMessage) :=
  match s.pedestrian_light_state with
  | .Stop => some ([], [])
  | .CrossPending =>
      some ([], [(⟨.GreenToRed, some .CrossPending⟩, .GREEN_TO_AMBER_DELAY)])
  | .Cross => none
  | .CrossEnding => none

/-- Mirrors `SequencerAgent::schedule_next_state`. -/
def schedule_next_state (s : SequencerAgent) :
    Option (List LightsMessage × List ScheduledMessage) :=
  match s.traffic_light_state with
  | .Red => calculate_red_state_next_step s
  | .RedToGreen =>
      some ([], [(⟨.Green, none⟩, .AMBER_TO_GREEN_DELAY)])
  | .Green => calculate_green_state_next_step s
  | .GreenToRed =>
      some ([], [(⟨.Red, some .CrossPending⟩, .AMBER_TO_RED_DELAY)])

/-- The state-update prefix of `SequencerAgent::handle_internal_message`
(everything before the final `schedule_next_state` call): adopt the incoming
traffic state unconditionally and emit it; adopt the optional pedestrian
state unless the delayed message would overwrite a button press registered
while heading into `RedToGreen`. -/
def apply_internal_message (s : SequencerAgent) (m : InternalMessage) :
    SequencerAgent × List LightsMessage :=
  let s1 : SequencerAgent := { s with traffic_light_state := m.traffic_light_state }
  let e1 := [LightsMessage.SetTrafficLightState s1.traffic_light_state]
  match m.pedestrian_light_state with
  | none => (s1, e1)
  | some p =>
      if s1.traffic_light_state = TrafficSequenceState.RedToGreen ∧
         s1.pedestrian_light_state = PedestrianCrossingSequenceState.CrossPending then
        (s1, e1)
      else
        ({ s1 with pedestrian_light_state := p },
         e1 ++ [LightsMessage.SetPedestrianLightState p])

/-- Mirrors `SequencerAgent::handle_internal_message`: apply the state update,
then schedule the next step for the just-adopted state. -/
def handle_internal_message (s : SequencerAgent) (m : InternalMessage) :
    Option (SequencerAgent × List LightsMessage × List ScheduledMessage) :=
  match schedule_next_state (apply_internal_message s m).1 with
  | none => none
  | some pair =>
      some ((apply_internal_message s m).1,
            (apply_internal_message s m).2 ++ pair.1, pair.2)

/-- Mirrors `SequencerAgent::handle_button_press_in_red_state`; `none` is the
`panic!()` on `Stop` ("Invalid in red state"). -/
def handle_button_press_in_red_state (s : SequencerAgent) :
    Option (SequencerAgent × List LightsMessage) :=
  match s.pedestrian_light_state with
  | .Stop => none
  | .CrossPending => some (s, [])
  | .Cross => some (s, [])
  | .CrossEnding =>
      some ({ s with pedestrian_light_state := PedestrianCrossingSequenceState.CrossPending },
            [LightsMessage.SetButtonLightState true])

/-- Mirrors `SequencerAgent::handle_button_press`. -/
def handle_button_press (s : SequencerAgent) :
    Option (SequencerAgent × List LightsMessage × List ScheduledMessage) :=
  match s.traffic_light_state with
  | .Red =>
      (handle_button_press_in_red_state s).map
        (fun pair => (pair.1, pair.2, ([] : List ScheduledMessage)))
  | .RedToGreen =>
      some ({ s with pedestrian_light_state := PedestrianCrossingSequenceState.CrossPending },
            [LightsMessage.SetButtonLightState true], [])
  | .GreenToRed =>
      some ({ s with pedestrian_light_state := PedestrianCrossingSequenceState.CrossPending },
            [LightsMessage.SetButtonLightState true], [])
  | .Green =>
      let s1 : SequencerAgent :=
        { s with pedestrian_light_state := PedestrianCrossingSequenceState.CrossPending }
      match schedule_next_state s1 with
      | none => none
      | some pair =>
          some (s1, LightsMessage.SetButtonLightState true :: pair.1, pair.2)

/-- Mirrors `SequencerAgent::begin`: emit the button-light flag (on exactly
when the pedestrian phase is `CrossPending`), the current traffic and
pedestrian states, then schedule the first timed step. -/
def begin (s : SequencerAgent) :
    Option (SequencerAgent × List LightsMessage × List ScheduledMessage) :=
  let buttonLight : Bool :=
    match s.pedestrian_light_state with
    | .CrossPending => true
    | _ => false
  match schedule_next_state s with
  | none => none
  | some pair =>
      some (s,
            [LightsMessage.SetButtonLightState buttonLight,
             LightsMessage.SetTrafficLightState s.traffic_light_state,
             LightsMessage.SetPedestrianLightState s.pedestrian_light_state] ++ pair.1,
            pair.2)

/-- Mirrors the private `TrafficLights` struct in `lights.rs` (the state of
each bulb of the traffic light). -/
structure TrafficLights where
  red : Bool
  amber : Bool
  green : Bool
deriving DecidableEq, Repr

/-- Mirrors `impl From<TrafficSequenceState> for TrafficLights` in `lights.rs`. -/
def TrafficLights.fromState : TrafficSequenceState → TrafficLights
  | .Red => ⟨true, false, false⟩
  | .RedToGreen => ⟨true, true, false⟩
  | .Green => ⟨false, false, true⟩
  | .GreenToRed => ⟨false, true, false⟩

/-- Mirrors the private `PedestrianLights` struct in `lights.rs`. -/
structure PedestrianLights where
  stop : Bool
  cross : Bool
deriving DecidableEq, Repr

/-- Mirrors `impl From<PedestrianCrossingSequenceState> for PedestrianLights`
in `lights.rs`. -/
def PedestrianLights.fromState : PedestrianCrossingSequenceState → PedestrianLights
  | .Cross => ⟨false, true⟩
  | .Stop => ⟨true, false⟩
  | .CrossEnding => ⟨true, false⟩
  | .CrossPending => ⟨true, false⟩

/-- Mirrors the state of `LightsAgent` in `lights.rs`. -/
structure LightsAgent where
  traffic_light_state : TrafficLights
  pedestrian_light_state : PedestrianLights
  cross_pending : Bool
deriving DecidableEq, Repr

/-- Mirrors `LightsAgent::create`: defaults are the Red traffic lights, the
Stop pedestrian lights, and the button light off. -/
def LightsAgent.create : LightsAgent :=
  ⟨TrafficLights.fromState .Red, PedestrianLights.fromState .Stop, false⟩

/-- Mirrors `LightsAgent::message_handler` (restricted to the `Lights`
payload); `Display` only prints and leaves the state unchanged. -/
def LightsAgent.message_handler (a : LightsAgent) : LightsMessage → LightsAgent
  | .SetTrafficLightState t => { a with traffic_light_state := TrafficLights.fromState t }
  | .SetPedestrianLightState p =>
      { a with pedestrian_light_state := PedestrianLights.fromState p }
  | .SetButtonLightState b => { a with cross_pending := b }
  | .Display => a

/-- Process a batch of emitted lights messages in emission order. -/
def applyLights (a : LightsAgent) (msgs : List LightsMessage) : LightsAgent :=
  msgs.foldl LightsAgent.message_handler a

/-- A configuration of the running system: the sequencer state, the lights
agent state after processing every lights message emitted so far, and the
multiset (as a list) of self-scheduled `Advance` messages armed but not yet
delivered. -/
structure Config where
  sequencer : SequencerAgent
  lights : LightsAgent
  pending : List ScheduledMessage
deriving DecidableEq, Repr

/-- One externally visible event: a `ButtonPress` from the button agent, or
the delivery of the i-th pending self-scheduled message.  The specification
guarantees only a lower bound on each delay and no ordering between a delayed
`Advance` and a concurrent `ButtonPress`, so delivery order is unconstrained. -/
inductive ExternalEvent where
  | press
  | deliver (i : Nat)
deriving DecidableEq, Repr

/-- One step of the system: dispatch the event to the sequencer handler (as in
`SequencerAgent::handle_message`), feed the emitted lights messages to the
lights agent, and add the newly armed messages to the pending list.  `none`
models a `panic!` in the handler (or the delivery of a message that is not
pending). -/
def step (c : Config) : ExternalEvent → Option Config
  | .press =>
      match handle_button_press c.sequencer with
      | none => none
      | some r => some ⟨r.1, applyLights c.lights r.2.1, c.pending ++ r.2.2⟩
  | .deliver i =>
      match c.pending[i]? with
      | none => none
      | some m =>
          match handle_internal_message c.sequencer m.1 with
          | none => none
          | some r =>
              some ⟨r.1, applyLights c.lights r.2.1, c.pending.eraseIdx i ++ r.2.2⟩

/-- Run a sequence of events from a configuration; `none` as soon as a step
panics. -/
def run (c : Config) : List ExternalEvent → Option Config
  | [] => some c
  | e :: es =>
      match step c e with
      | none => none
      | some c1 => run c1 es

/-- The configuration right after the `Begin` message has been handled by the
freshly created sequencer and the freshly created lights agent has processed
the emitted messages (as arranged in `main.rs`). -/
def initConfig : Option Config :=
  match begin SequencerAgent.create with
  | none => none
  | some r => some ⟨r.1, applyLights LightsAgent.create r.2.1, r.2.2⟩

/-- Run a sequence of events starting from the post-`Begin` configuration. -/
def runFromBegin (es : List ExternalEvent) : Option Config :=
  match initConfig with
  | none => none
  | some c => run c es

/-! ## Helper lemmas -/

/-- The sequencer state returned by a non-panicking `handle_internal_message`
is the state computed by its state-update prefix. -/
theorem handle_internal_message_fst (s : SequencerAgent) (m : InternalMessage)
    (r : SequencerAgent × List LightsMessage × List ScheduledMessage)
    (h : handle_internal_message s m = some r) :
    r.1 = (apply_internal_message s m).1 := by
  unfold handle_internal_message at h
  cases hS : schedule_next_state (apply_internal_message s m).1 with
  | none => rw [hS] at h; cases h
  | some pair => rw [hS] at h; injection h with h1; rw [← h1]

/-- Every non-panicking `handle_button_press` leaves the traffic phase
unchanged (boolean form, over all sixteen sequencer states). -/
theorem button_press_traffic_all :
    ∀ s : SequencerAgent,
      Option.all (fun r => decide (r.1.traffic_light_state = s.traffic_light_state))
        (handle_button_press s) = true := by decide

/-! ## The claims -/

/-- C1: delivering `Advance(next_traffic, next_pedestrian)` adopts
`next_traffic` unconditionally; `next_pedestrian = some p` is discarded
exactly when the just-adopted traffic phase is `RedToGreen` and the
pedestrian phase at delivery is already `CrossPending` (the phase then stays
`CrossPending`), and is adopted in every other case.  In particular a
`ButtonPress` in (Red, CrossEnding) followed by a stale
`Advance(RedToGreen, Stop)` leaves the pedestrian phase `CrossPending`. -/
theorem c1_advance_reconciliation (s : SequencerAgent) (m : InternalMessage)
    (r : SequencerAgent × List LightsMessage × List ScheduledMessage)
    (h : handle_internal_message s m = some r) :
    (r.1.traffic_light_state = m.traffic_light_state ∧
     r.1.pedestrian_light_state =
       (match m.pedestrian_light_state with
        | none => s.pedestrian_light_state
        | some p =>
            if m.traffic_light_state = TrafficSequenceState.RedToGreen ∧
               s.pedestrian_light_state = PedestrianCrossingSequenceState.CrossPending then
              s.pedestrian_light_state
            else p)) ∧
    ((handle_button_press ⟨.Red, .CrossEnding⟩).map (fun x => x.1) =
       some ⟨.Red, .CrossPending⟩ ∧
     (handle_internal_message ⟨.Red, .CrossPending⟩ ⟨.RedToGreen, some .Stop⟩).map
        (fun x => x.1.pedestrian_light_state) = some .CrossPending) := by
  have h1 := handle_internal_message_fst s m r h
  rw [h1]
  clear h h1
  revert s m
  decide

/-- Witness for C1 at the stale-`Advance` race itself: the press has set
(Red, CrossPending) and the delayed `Advance(RedToGreen, Stop)` is delivered. -/
theorem c1_advance_reconciliation_witness :
    (TrafficSequenceState.RedToGreen = TrafficSequenceState.RedToGreen ∧
     PedestrianCrossingSequenceState.CrossPending =
       (if TrafficSequenceState.RedToGreen = TrafficSequenceState.RedToGreen ∧
           PedestrianCrossingSequenceState.CrossPending =
             PedestrianCrossingSequenceState.CrossPending then
          PedestrianCrossingSequenceState.CrossPending
        else PedestrianCrossingSequenceState.Stop)) ∧
    ((handle_button_press ⟨.Red, .CrossEnding⟩).map (fun x => x.1) =
       some ⟨.Red, .CrossPending⟩ ∧
     (handle_internal_message ⟨.Red, .CrossPending⟩ ⟨.RedToGreen, some .Stop⟩).map
        (fun x => x.1.pedestrian_light_state) = some .CrossPending) :=
  c1_advance_reconciliation ⟨.Red, .CrossPending⟩ ⟨.RedToGreen, some .Stop⟩
    (⟨.RedToGreen, .CrossPending⟩, [LightsMessage.SetTrafficLightState .RedToGreen],
     [(⟨.Green, none⟩, Delay.AMBER_TO_GREEN_DELAY)]) rfl

/-- C2: the panic branches are reachable after `Begin`.  After the delivery
sequence below (two button presses while the light is green, then an
interleaving of the resulting two concurrent `Advance` chains that the delay
scheduler is allowed to produce) the controller is in (Red, Cross) with the
stale `Advance(Green, none)` still pending; delivering it adopts Green while
the pedestrian phase is Cross, and `calculate_green_state_next_step` hits its
`panic!` branch ("Invalid in green states"). -/
theorem c2_green_panic_reached :
    (runFromBegin [.deliver 0, .deliver 0, .press, .press, .deliver 0, .deliver 1,
                   .deliver 1, .deliver 1, .deliver 1, .deliver 0, .deliver 1,
                   .deliver 1]).map (fun c => (c.sequencer, c.pending)) =
      some (⟨.Red, .Cross⟩,
            [(⟨.Green, none⟩, Delay.AMBER_TO_GREEN_DELAY),
             (⟨.Red, some .CrossEnding⟩, Delay.CROSSING_LENGTH)]) ∧
    handle_internal_message ⟨.Red, .Cross⟩ ⟨.Green, none⟩ = none ∧
    runFromBegin [.deliver 0, .deliver 0, .press, .press, .deliver 0, .deliver 1,
                  .deliver 1, .deliver 1, .deliver 1, .deliver 0, .deliver 1,
                  .deliver 1, .deliver 0] = none := by decide

/-- C3: a second `ButtonPress` delivered while the controller is in
(Green, CrossPending) arms a second `Advance(GreenToRed, CrossPending)` timer
while the first is still pending: after `Begin`, two `Advance` deliveries and
one press there is exactly one pending timer, and one more press makes two. -/
theorem c3_second_timer_while_pending :
    (runFromBegin [.deliver 0, .deliver 0, .press]).map
        (fun c => (c.sequencer, c.pending.length)) =
      some (⟨.Green, .CrossPending⟩, 1) ∧
    (runFromBegin [.deliver 0, .deliver 0, .press, .press]).map
        (fun c => (c.sequencer, c.pending)) =
      some (⟨.Green, .CrossPending⟩,
            [(⟨.GreenToRed, some .CrossPending⟩, Delay.GREEN_TO_AMBER_DELAY),
             (⟨.GreenToRed, some .CrossPending⟩, Delay.GREEN_TO_AMBER_DELAY)]) := by
  decide

/-- C4: `schedule_next_state` computes exactly the spec's scheduling table for
every just-adopted state, including the immediate ButtonLight-off emission in
(Red, Cross) and the delay constant attached to each armed `Advance`. -/
theorem c4_scheduling_table :
    schedule_next_state ⟨.Red, .CrossPending⟩ =
      some ([], [(⟨.Red, some .Cross⟩, Delay.CROSSING_START_DELAY)]) ∧
    schedule_next_state ⟨.Red, .Cross⟩ =
      some ([LightsMessage.SetButtonLightState false],
            [(⟨.Red, some .CrossEnding⟩, Delay.CROSSING_LENGTH)]) ∧
    schedule_next_state ⟨.Red, .CrossEnding⟩ =
      some ([], [(⟨.RedToGreen, some .Stop⟩, Delay.CROSSING_END_DELAY)]) ∧
    (∀ p : PedestrianCrossingSequenceState,
      schedule_next_state ⟨.RedToGreen, p⟩ =
        some ([], [(⟨.Green, none⟩, Delay.AMBER_TO_GREEN_DELAY)])) ∧
    schedule_next_state ⟨.Green, .Stop⟩ = some ([], []) ∧
    schedule_next_state ⟨.Green, .CrossPending⟩ =
      some ([], [(⟨.GreenToRed, some .CrossPending⟩, Delay.GREEN_TO_AMBER_DELAY)]) ∧
    (∀ p : PedestrianCrossingSequenceState,
      schedule_next_state ⟨.GreenToRed, p⟩ =
        some ([], [(⟨.Red, some .CrossPending⟩, Delay.AMBER_TO_RED_DELAY)])) := by
  refine ⟨?_, ?_, ?_, ?_, ?_, ?_, ?_⟩ <;> decide

/-- The steady configuration in which the traffic light holds green, the
pedestrian signal shows stop and the button light is off (the starting point
of the end-to-end button-press cycle of the specification). -/
def greenStopConfig : Config :=
  ⟨⟨.Green, .Stop⟩,
   ⟨TrafficLights.fromState .Green, PedestrianLights.fromState .Stop, false⟩, []⟩

/-- C5 counterexample: from (Green, Stop, button light off), after the press
and three `Advance` deliveries the controller has just adopted (Red, Cross),
and the button light processed by the lights agent is already OFF — the same
handler that adopts `Cross` emits `SetButtonLightState(false)` — whereas the
claim states the button-light value in effect during the (Red, Cross) step is
true. -/
theorem c5_counterexample :
    (run greenStopConfig [.press, .deliver 0, .deliver 0, .deliver 0]).map
        (fun c => (c.sequencer, c.lights.cross_pending)) =
      some (⟨.Red, .Cross⟩, false) := by decide

/-- C5 (amended): the press-triggered cycle from (Green, Stop, off) visits
(Green, CrossPending, on), (GreenToRed, CrossPending, on),
(Red, CrossPending, on), (Red, Cross, off) — the button light is switched off
within the step that enters (Red, Cross) — and (Red, CrossEnding, off), each
step arming exactly the scheduled `Advance` and delay of the spec's table. -/
theorem c5_button_press_cycle :
    (run greenStopConfig [.press]).map
        (fun c => (c.sequencer, c.lights.cross_pending, c.pending)) =
      some (⟨.Green, .CrossPending⟩, true,
            [(⟨.GreenToRed, some .CrossPending⟩, Delay.GREEN_TO_AMBER_DELAY)]) ∧
    (run greenStopConfig [.press, .deliver 0]).map
        (fun c => (c.sequencer, c.lights.cross_pending, c.pending)) =
      some (⟨.GreenToRed, .CrossPending⟩, true,
            [(⟨.Red, some .CrossPending⟩, Delay.AMBER_TO_RED_DELAY)]) ∧
    (run greenStopConfig [.press, .deliver 0, .deliver 0]).map
        (fun c => (c.sequencer, c.lights.cross_pending, c.pending)) =
      some (⟨.Red, .CrossPending⟩, true,
            [(⟨.Red, some .Cross⟩, Delay.CROSSING_START_DELAY)]) ∧
    (run greenStopConfig [.press, .deliver 0, .deliver 0, .deliver 0]).map
        (fun c => (c.sequencer, c.lights.cross_pending, c.pending)) =
      some (⟨.Red, .Cross⟩, false,
            [(⟨.Red, some .CrossEnding⟩, Delay.CROSSING_LENGTH)]) ∧
    (run greenStopConfig [.press, .deliver 0, .deliver 0, .deliver 0, .deliver 0]).map
        (fun c => (c.sequencer, c.lights.cross_pending, c.pending)) =
      some (⟨.Red, .CrossEnding⟩, false,
            [(⟨.RedToGreen, some .Stop⟩, Delay.CROSSING_END_DELAY)]) := by
  refine ⟨?_, ?_, ?_, ?_, ?_⟩ <;> decide

/-- C6: a registered press can be lost.  After `Begin`, two presses while
green and a delivery order the delay scheduler may produce, the controller is
in (GreenToRed, CrossPending) with a stale `Advance(Red, CrossEnding)` still
pending; delivering it moves the pedestrian phase from `CrossPending`
directly to `CrossEnding` — not `Cross` — erasing the registered press. -/
theorem c6_press_lost :
    (runFromBegin [.deliver 0, .deliver 0, .press, .press, .deliver 0, .deliver 1,
                   .deliver 1, .deliver 0]).map (fun c => c.sequencer) =
      some ⟨.GreenToRed, .CrossPending⟩ ∧
    (runFromBegin [.deliver 0, .deliver 0, .press, .press, .deliver 0, .deliver 1,
                   .deliver 1, .deliver 0, .deliver 0]).map
        (fun c => c.sequencer.pedestrian_light_state) = some .CrossEnding := by
  refine ⟨?_, ?_⟩ <;> decide

/-- C7 counterexample: a `ButtonPress` in (Red, CrossEnding) emits ONLY
`SetButtonLightState(true)`; no `SetPedestrianLightState` message is sent to
the lights agent, contrary to the claim's "emits the updated pedestrian
state". -/
theorem c7_counterexample :
    (handle_button_press ⟨.Red, .CrossEnding⟩).map (fun r => r.2.1) =
      some [LightsMessage.SetButtonLightState true] ∧
    LightsMessage.SetPedestrianLightState .CrossPending ∉
      [LightsMessage.SetButtonLightState true] := by decide

/-- C7 (amended): a `ButtonPress` in (Red, CrossEnding) sets the pedestrian
phase to `CrossPending` and turns the ButtonLight on, emitting only the
button-light update (no pedestrian-state message; `CrossEnding` and
`CrossPending` render identically), and neither cancels nor replaces the
already-scheduled `Advance`: whatever messages are pending stay pending and
no new one is armed. -/
theorem c7_press_in_cross_ending :
    handle_button_press ⟨.Red, .CrossEnding⟩ =
      some (⟨.Red, .CrossPending⟩, [LightsMessage.SetButtonLightState true], []) ∧
    ∀ (L : LightsAgent) (P : List ScheduledMessage),
      step ⟨⟨.Red, .CrossEnding⟩, L, P⟩ .press =
        some ⟨⟨.Red, .CrossPending⟩,
              L.message_handler (LightsMessage.SetButtonLightState true), P⟩ := by
  refine ⟨rfl, fun L P => ?_⟩
  have e : step ⟨⟨.Red, .CrossEnding⟩, L, P⟩ .press =
      some ⟨⟨.Red, .CrossPending⟩,
            L.message_handler (LightsMessage.SetButtonLightState true), P ++ []⟩ := rfl
  rw [e, List.append_nil]

/-- C8: a `ButtonPress` in (Red, CrossPending) or (Red, Cross) is a no-op:
the controller state is unchanged (and nothing is emitted or scheduled). -/
theorem c8_duplicate_press_idempotent :
    handle_button_press ⟨.Red, .CrossPending⟩ =
      some (⟨.Red, .CrossPending⟩, [], []) ∧
    handle_button_press ⟨.Red, .Cross⟩ = some (⟨.Red, .Cross⟩, [], []) :=
  ⟨rfl, rfl⟩

/-- C9: the button light can desynchronize from the pedestrian phase.  In the
reachable configuration below (after two presses while green and a
scheduler-permitted delivery order) the sequencer's pedestrian phase is
`CrossPending` while the lights agent — having processed every emitted light
message — holds `cross_pending = false`: the claimed "light on iff
CrossPending" equivalence fails. -/
theorem c9_button_light_desync :
    (runFromBegin [.deliver 0, .deliver 0, .press, .press, .deliver 0, .deliver 1,
                   .deliver 1, .deliver 0]).map
        (fun c => (c.sequencer.pedestrian_light_state, c.lights.cross_pending)) =
      some (.CrossPending, false) := by decide

/-- C10: whenever a `ButtonPress` does not hit the panic branch, the traffic
phase is unchanged by it: a press only ever mutates the pedestrian phase. -/
theorem c10_button_press_traffic_frame (s : SequencerAgent)
    (r : SequencerAgent × List LightsMessage × List ScheduledMessage)
    (h : handle_button_press s = some r) :
    r.1.traffic_light_state = s.traffic_light_state := by
  have hall := button_press_traffic_all s
  rw [h] at hall
  simp only [Option.all] at hall
  exact of_decide_eq_true hall

/-- Witness for C10: a press in (Green, Stop) yields (Green, CrossPending)
and the traffic phase is still Green. -/
theorem c10_button_press_traffic_frame_witness :
    (SequencerAgent.mk .Green .CrossPending).traffic_light_state =
      (SequencerAgent.mk .Green .Stop).traffic_light_state :=
  c10_button_press_traffic_frame ⟨.Green, .Stop⟩
    (⟨.Green, .CrossPending⟩, [LightsMessage.SetButtonLightState true],
     [(⟨.GreenToRed, some .CrossPending⟩, Delay.GREEN_TO_AMBER_DELAY)]) rfl
